import Mathlib

/-!
Verification of the terminal_utils rendering substrate against its design
specification.  Each C++ data type and operation relevant to the checked
claims is shallowly embedded as an executable Lean definition translated
from the source files (coord.h, colors.h, cursor.h, ConsoleCMD.h,
WindowBox.h, DirectoryDisplayBox.h, InputControl.h), and the claimed
properties are stated and settled as theorems about those definitions.

Modelling conventions:
* C++ `short`/`int` values are modelled as `Int`; the operations proved
  about stay far away from the 16/32-bit overflow boundaries, so wrap-around
  is not modelled (every concrete evaluation stays within `short` range).
* `uint8_t`/`unsigned` values are modelled as `Nat`, with the
  `static_cast<uint8_t>` truncation made explicit (`% 256`) where the source
  performs it.
* `std::wstring` buffers are modelled as `List Char`.
* C++ integer division on `int` truncates toward zero; it is modelled by
  `Int.div`, which has the same rounding.
* Functions that throw model the throw as `Option.none`.
-/

namespace mz

/-! ## Geometry: coord / coord_box (coord.h) -/

/-- Embedding of `struct coord` (coord.h): a terminal position with
`short Row, Col`, modelled over `Int`. -/
structure coord where
  Row : Int
  Col : Int
deriving DecidableEq, Repr

/-- Embedding of `coord::normalize` (coord.h:450-453): clamp both
components to be non-negative. -/
def coord.normalize (c : coord) : coord :=
  { Row := if c.Row > 0 then c.Row else 0,
    Col := if c.Col > 0 then c.Col else 0 }

/-- Embedding of `struct coord_box` (coord.h): a rectangle given by
inclusive top-left and bottom-right corners. -/
structure coord_box where
  Top : coord
  Bottom : coord
deriving DecidableEq, Repr

/-- Embedding of `coord_box::num_rows` (coord.h:769-771). -/
def coord_box.num_rows (b : coord_box) : Int :=
  b.Bottom.Row - b.Top.Row + 1

/-- Embedding of `coord_box::num_cols` (coord.h:777-779). -/
def coord_box.num_cols (b : coord_box) : Int :=
  b.Bottom.Col - b.Top.Col + 1

/-- Embedding of `coord_box::disjoint` (coord.h:787-792). -/
def coord_box.disjoint (l r : coord_box) : Bool :=
  l.Top.Row > r.Bottom.Row || l.Top.Col > r.Bottom.Col ||
  r.Top.Row > l.Bottom.Row || r.Top.Col > l.Bottom.Col

/-- Embedding of `coord_box::normalize` (coord.h:868-882): clamp both
corners to non-negative coordinates, then grow `Bottom` so that the box is
at least `MinNumRows` by `MinNumCols` (the C++ defaults are 1 and 1). -/
def coord_box.normalize (b : coord_box) (MinNumRows MinNumCols : Int) : coord_box :=
  let Top := b.Top.normalize
  let Bottom := b.Bottom.normalize
  let MinRows := if MinNumRows > 0 then MinNumRows else 0
  let MinCols := if MinNumCols > 0 then MinNumCols else 0
  let R := Top.Row + MinRows - 1
  let C := Top.Col + MinCols - 1
  { Top := Top,
    Bottom := { Row := if R > Bottom.Row then R else Bottom.Row,
                Col := if C > Bottom.Col then C else Bottom.Col } }

/-- Embedding of `coord_box::intersect` (coord.h:988-998): component-wise
max of tops and min of bottoms. -/
def coord_box.intersect (l r : coord_box) : coord_box :=
  { Top := { Row := if l.Top.Row > r.Top.Row then l.Top.Row else r.Top.Row,
             Col := if l.Top.Col > r.Top.Col then l.Top.Col else r.Top.Col },
    Bottom := { Row := if l.Bottom.Row < r.Bottom.Row then l.Bottom.Row else r.Bottom.Row,
                Col := if l.Bottom.Col < r.Bottom.Col then l.Bottom.Col else r.Bottom.Col } }

/-! ## Colors: rgb (colors.h) -/

/-- Embedding of `static_cast<uint8_t>` on a non-negative value. -/
def toU8 (x : Nat) : Nat := x % 256

/-- Embedding of `struct rgb` (colors.h): three 8-bit components,
modelled as `Nat` with well-formedness `rgb.wf` expressing the 8-bit
range that the C++ `uint8_t` fields guarantee by type. -/
structure rgb where
  r : Nat
  g : Nat
  b : Nat
deriving DecidableEq, Repr

/-- The 8-bit range invariant carried by the C++ `uint8_t` fields. -/
def rgb.wf (c : rgb) : Prop := c.r < 256 ∧ c.g < 256 ∧ c.b < 256

instance (c : rgb) : Decidable c.wf := by unfold rgb.wf; infer_instance

/-- Embedding of `rgb::avg` (colors.h:65-67): `(l + r) / 2` in unsigned
arithmetic. -/
def rgb.avgc (l r : Nat) : Nat := (l + r) / 2

/-- Embedding of `rgb::value` (colors.h:158-160): the packed 24-bit value
`r | g << 8 | b << 16`. -/
def rgb.value (c : rgb) : Nat := c.r + 256 * c.g + 65536 * c.b

/-- Embedding of `operator + (rgb, rgb)` (colors.h:334-336): component-wise
`avg`, each result passed through the `uint8_t` constructor cast. -/
def rgb.add (L R : rgb) : rgb :=
  { r := toU8 (rgb.avgc L.r R.r),
    g := toU8 (rgb.avgc L.g R.g),
    b := toU8 (rgb.avgc L.b R.b) }

/-! ## Viewport navigation: DirectoryDisplayBox (DirectoryDisplayBox.h)

The four navigation operations `move_up`, `move_down`, `page_up`,
`page_down` mutate the viewport indices `TopIndex` / `FocusIndex` and
patch + flush the render buffer.  The buffer writes never touch the
indices, so the viewport claims are settled over the index state; the
branch structure and index arithmetic below are translated line by line
from the source.  `numRows` stands for `Area.num_rows()`, fixed for the
life of the widget. -/

/-- Viewport index state of a `DirectoryDisplayBox`:
`TopIndex`, `FocusIndex`, `NumIndexes` and the geometry input
`Area.num_rows()`. -/
structure ddb_view where
  TopIndex : Int
  FocusIndex : Int
  NumIndexes : Int
  numRows : Int
deriving DecidableEq, Repr

/-- Embedding of `DirectoryDisplayBox::move_up` (DirectoryDisplayBox.h:654-707),
index mutations only. -/
def ddb_view.move_up (s : ddb_view) : ddb_view :=
  if s.NumIndexes = 0 then s
  else if s.FocusIndex > 0 then
    let F := s.FocusIndex - 1
    let T := if s.TopIndex > F then F else s.TopIndex
    { s with FocusIndex := F, TopIndex := T }
  else s

/-- Embedding of `DirectoryDisplayBox::move_down` (DirectoryDisplayBox.h:714-766),
index mutations only. -/
def ddb_view.move_down (s : ddb_view) : ddb_view :=
  if s.FocusIndex + 1 < s.NumIndexes then
    let F := s.FocusIndex + 1
    let T := if F - s.TopIndex ≥ s.numRows - 1 then s.TopIndex + 1 else s.TopIndex
    { s with FocusIndex := F, TopIndex := T }
  else s

/-- Embedding of `DirectoryDisplayBox::page_up` (DirectoryDisplayBox.h:469-550),
index mutations only. -/
def ddb_view.page_up (s : ddb_view) : ddb_view :=
  if s.NumIndexes = 0 then s
  else if s.FocusIndex > s.TopIndex then
    { s with FocusIndex := s.TopIndex }
  else if s.TopIndex > 0 then
    let T0 := s.TopIndex - (s.numRows - 1)
    let T := if 0 > T0 then 0 else T0
    { s with TopIndex := T, FocusIndex := T }
  else s

/-- Embedding of `DirectoryDisplayBox::page_down` (DirectoryDisplayBox.h:557-647),
index mutations only. -/
def ddb_view.page_down (s : ddb_view) : ddb_view :=
  if s.NumIndexes = 0 then s
  else
    let B0 := s.TopIndex + s.numRows - 2
    let B1 := if B0 < s.NumIndexes - 1 then B0 else s.NumIndexes - 1
    if s.FocusIndex < B1 then
      { s with FocusIndex := B1 }
    else if B1 < s.NumIndexes - 1 then
      let B2 := B1 + (s.numRows - 2)
      let B3 := if B2 < s.NumIndexes - 1 then B2 else s.NumIndexes - 1
      let T0 := B3 - (s.numRows - 2)
      let T := if 0 > T0 then 0 else T0
      { s with FocusIndex := B3, TopIndex := T }
    else s

/-- The ViewportState invariant of the specification, for a box with at
least one item and at least one visible row. -/
def ddb_view.inv (s : ddb_view) : Prop :=
  0 ≤ s.TopIndex ∧ s.TopIndex ≤ s.FocusIndex ∧ s.FocusIndex < s.NumIndexes ∧
    s.FocusIndex - s.TopIndex < s.numRows - 1

/-! ## Text edit controller: InputControl (InputControl.h)

`InputControl::insert` and its helper `process_control_keys` mutate the
text and cursor state and emit terminal output.  The output writes never
feed back into the state, so the text-edit claims are settled over the
state; branch structure and arithmetic are translated line by line from
the source.  Characters are stored as their integer codes (the
`static_cast<wchar_t>` is the identity on every character accepted by
`IsDisplayCharacter`).  The signed/unsigned conversions in the source
comparisons agree with plain `Int` comparisons whenever the validated
precondition at the top of `insert` holds (all indices non-negative),
which is the only situation in which the comparing code runs. -/

/-- Key code `BACKSPACEKEY` (ConsoleCMD.h:183). -/
def BACKSPACEKEY : Int := 8

/-- Key code `HOMEKEY` = `(71 << 16) | 224` (ConsoleCMD.h:186). -/
def HOMEKEY : Int := 71 * 65536 + 224

/-- Key code `ENDKEY` = `(79 << 16) | 224` (ConsoleCMD.h:187). -/
def ENDKEY : Int := 79 * 65536 + 224

/-- Key code `LEFTKEY` = `(75 << 16) | 224` (ConsoleCMD.h:188). -/
def LEFTKEY : Int := 75 * 65536 + 224

/-- Key code `RIGHTKEY` = `(77 << 16) | 224` (ConsoleCMD.h:189). -/
def RIGHTKEY : Int := 77 * 65536 + 224

/-- Key code `INSERTKEY` = `(82 << 16) | 224` (ConsoleCMD.h:190). -/
def INSERTKEY : Int := 82 * 65536 + 224

/-- Key code `DELETEKEY` = `(83 << 16) | 224` (ConsoleCMD.h:191). -/
def DELETEKEY : Int := 83 * 65536 + 224

/-- Embedding of `IsDigitCharacter` (ConsoleCMD.h:320). -/
def IsDigitCharacter (c : Int) : Bool := c ≥ 48 && c ≤ 57

/-- Embedding of `IsLowerCase` (ConsoleCMD.h:327). -/
def IsLowerCase (c : Int) : Bool := c ≥ 97 && c ≤ 122

/-- Embedding of `IsUpperCase` (ConsoleCMD.h:334). -/
def IsUpperCase (c : Int) : Bool := c ≥ 65 && c ≤ 90

/-- Embedding of `IsAlphaNumeric` (ConsoleCMD.h:341-343). -/
def IsAlphaNumeric (c : Int) : Bool :=
  IsLowerCase c || IsUpperCase c || IsDigitCharacter c

/-- Embedding of `IsFilenameCharacter` (ConsoleCMD.cpp:68-102); the listed
codes are the character cases of the switch, in source order. -/
def IsFilenameCharacter (c : Int) : Bool :=
  IsAlphaNumeric c ||
  c == 126 || c == 96 || c == 33 || c == 64 || c == 35 || c == 36 ||
  c == 37 || c == 94 || c == 38 || c == 40 || c == 41 || c == 45 ||
  c == 43 || c == 95 || c == 61 || c == 59 || c == 39 || c == 44 ||
  c == 46 || c == 32

/-- Embedding of `IsDisplayCharacter` (ConsoleCMD.cpp:114-137). -/
def IsDisplayCharacter (c : Int) : Bool :=
  IsFilenameCharacter c ||
  c == 92 || c == 47 || c == 58 || c == 42 || c == 63 || c == 34 ||
  c == 60 || c == 62 || c == 124

/-- State of an `InputControl` (InputControl.h): the text, the
insert/overwrite flag (`true` = overwrite), the index of the first visible
character, the cursor offset within the visible area, the capacity, and
the geometry input `Area.num_cols()`. -/
structure InputControl where
  Text : List Int
  InsertOn : Bool
  BeginIndex : Int
  BeginOffset : Int
  MaxLength : Int
  numCols : Int
deriving DecidableEq, Repr

/-- Embedding of `InputControl::box_length` (InputControl.h:432-435). -/
def InputControl.box_length (s : InputControl) : Int :=
  if s.numCols ≤ s.MaxLength then s.numCols else s.MaxLength

/-- Embedding of `InputControl::process_control_keys`
(InputControl.h:70-210), state mutations only (cursor/shape writes to the
terminal are elided; they do not touch the state). -/
def InputControl.process_control_keys (s : InputControl) (x : Int) :
    Bool × InputControl :=
  let BoxLength := s.box_length
  let EndIndex := s.BeginIndex + s.BeginOffset
  if x = BACKSPACEKEY then
    if s.BeginIndex + s.BeginOffset > 0 then
      let p := (s.BeginIndex + s.BeginOffset).toNat
      let T := s.Text.take (p - 1) ++ s.Text.drop p
      let BO := s.BeginOffset - 1
      if BO < 0 then
        (true, { s with Text := T, BeginOffset := 0, BeginIndex := s.BeginIndex - 1 })
      else
        (true, { s with Text := T, BeginOffset := BO })
    else (true, s)
  else if x = HOMEKEY then
    if s.BeginIndex + s.BeginOffset > BoxLength then
      (true, { s with BeginIndex := 0, BeginOffset := 0 })
    else if s.BeginIndex + s.BeginOffset > 0 then
      (true, { s with BeginIndex := 0, BeginOffset := 0 })
    else (true, s)
  else if x = LEFTKEY then
    if s.BeginOffset = BoxLength then
      (true, { s with BeginOffset := s.BeginOffset - 1 })
    else if s.BeginOffset > 0 then
      (true, { s with BeginOffset := s.BeginOffset - 1 })
    else if s.BeginIndex > 0 then
      (true, { s with BeginIndex := s.BeginIndex - 1 })
    else (true, s)
  else if x = RIGHTKEY then
    if s.BeginIndex + s.BeginOffset < (s.Text.length : Int) then
      let BO := s.BeginOffset + 1
      if BO < BoxLength then (true, { s with BeginOffset := BO })
      else if BO = BoxLength then (true, { s with BeginOffset := BO })
      else (true, { s with BeginIndex := s.BeginIndex + 1, BeginOffset := BoxLength })
    else (true, s)
  else if x = ENDKEY then
    let textSize : Int := s.Text.length
    if s.BeginIndex + BoxLength > textSize then
      if s.BeginIndex + s.BeginOffset < textSize then
        (true, { s with BeginOffset := textSize - s.BeginIndex })
      else (true, s)
    else if s.BeginIndex + BoxLength < textSize then
      (true, { s with BeginIndex := textSize - BoxLength, BeginOffset := BoxLength })
    else
      if s.BeginOffset < BoxLength then
        (true, { s with BeginOffset := textSize - s.BeginIndex })
      else (true, s)
  else if x = INSERTKEY then
    (true, { s with InsertOn := !s.InsertOn })
  else if x = DELETEKEY then
    if EndIndex < (s.Text.length : Int) then
      (true, { s with Text := s.Text.take EndIndex.toNat ++ s.Text.drop (EndIndex.toNat + 1) })
    else (true, s)
  else (false, s)

/-- Embedding of `InputControl::insert` (InputControl.h:264-363).  The
`throw std::logic_error` of the validation branch is modelled as `none`;
otherwise the result is `some (accepted, new state)` where `accepted` is
the returned `bool`.  The in-place shift loops of the insert path are
modelled by their net effect (insertion of the character at the cursor
index). -/
def InputControl.insert (s : InputControl) (x : Int) :
    Option (Bool × InputControl) :=
  if s.BeginIndex < 0 ∨ s.BeginOffset < 0 ∨ s.BeginOffset > s.numCols ∨
      s.BeginIndex + s.BeginOffset > (s.Text.length : Int) ∨
      (s.Text.length : Int) > s.MaxLength then
    none
  else
    match s.process_control_keys x with
    | (true, s1) => some (true, s1)
    | (false, _) =>
      let OffsetIndex := s.BeginIndex + s.BeginOffset
      let BoxLength := s.box_length
      let textSize : Int := s.Text.length
      if ¬ IsDisplayCharacter x then some (false, s)
      else if (s.Text.length : Int) < s.MaxLength then
        if OffsetIndex = textSize then
          let T := s.Text ++ [x]
          if s.BeginOffset < BoxLength then
            some (true, { s with Text := T, BeginOffset := s.BeginOffset + 1 })
          else
            some (true, { s with Text := T, BeginIndex := s.BeginIndex + 1, BeginOffset := BoxLength })
        else
          let T := if s.InsertOn then s.Text.set OffsetIndex.toNat x
                   else s.Text.take OffsetIndex.toNat ++ [x] ++ s.Text.drop OffsetIndex.toNat
          let BO := s.BeginOffset + 1
          if BO ≥ BoxLength then
            some (true, { s with Text := T, BeginIndex := s.BeginIndex + (BO - BoxLength), BeginOffset := BoxLength })
          else
            some (true, { s with Text := T, BeginOffset := BO })
      else if s.InsertOn ∧ OffsetIndex < textSize then
        let T := s.Text.set OffsetIndex.toNat x
        if s.BeginOffset < BoxLength then
          some (true, { s with Text := T, BeginOffset := s.BeginOffset + 1 })
        else if s.BeginIndex + s.BeginOffset < s.MaxLength then
          some (true, { s with Text := T, BeginIndex := s.BeginIndex + 1 })
        else
          some (true, { s with Text := T })
      else
        some (true, s)

/-- Embedding of the content region written by `InputControl::format_to`
(InputControl.h:220-245): the visible slice of the text (or the masking
character), space-padded to the box width.  The leading hide/color/position
escape sequences are elided; they are independent of the state. -/
def InputControl.format_content (s : InputControl) (DisplayCharacter : Int) :
    List Int :=
  let BoxLength := s.numCols.toNat
  let Rem0 := s.Text.length - s.BeginIndex.toNat
  let RemLength := if Rem0 > BoxLength then BoxLength else Rem0
  (if DisplayCharacter ≠ 0 then List.replicate RemLength DisplayCharacter
   else (s.Text.drop s.BeginIndex.toNat).take RemLength) ++
    List.replicate (BoxLength - RemLength) 32

/-- Fold `insert` over a list of key codes, requiring every call to pass
the validation (used for the end-to-end typing scenario). -/
def InputControl.insertAll (s : InputControl) (xs : List Int) :
    Option InputControl :=
  xs.foldlM (fun st x => (st.insert x).map Prod.snd) s

/-! ## Escape-sequence builders (ConsoleCMD.h, string-buffered variants)

`std::wstring` buffers are modelled as `List Char`.  `std::format`
specifiers `{:0>3d}` / `{:0>4d}` zero-pad the decimal representation on
the left to the given width. -/

/-- The decimal digits of a natural number, as characters. -/
def natChars (n : Nat) : List Char := (toString n).data

/-- Zero-pad the decimal representation of `n` on the left to width `w`
(the `std::format` specifier `{:0>Wd}`). -/
def padZ (w n : Nat) : List Char :=
  List.replicate (w - (natChars n).length) (Char.ofNat 48) ++ natChars n

/-- Embedding of `SetFrontColor(Buf, R, G, B)` (ConsoleCMD.h:676-678):
the appended characters. -/
def SetFrontColorBuf (R G B : Nat) : List Char :=
  "\x1b[38;2;".data ++ padZ 3 R ++ ";".data ++ padZ 3 G ++ ";".data ++ padZ 3 B ++ "m".data

/-- Embedding of `SetBackColor(Buf, R, G, B)` (ConsoleCMD.h:665-667):
the appended characters. -/
def SetBackColorBuf (R G B : Nat) : List Char :=
  "\x1b[48;2;".data ++ padZ 3 R ++ ";".data ++ padZ 3 G ++ ";".data ++ padZ 3 B ++ "m".data

/-- Embedding of `SetPos(Buff, Row, Col)` (ConsoleCMD.h:859-861):
the appended characters. -/
def SetPosBuf (Row Col : Nat) : List Char :=
  "\x1b[".data ++ padZ 4 Row ++ ";".data ++ padZ 4 Col ++ "H".data

/-- Embedding of the counted `MoveLeft(Buff, Count)` (ConsoleCMD.h:778):
the appended characters. -/
def MoveLeftBuf (Count : Nat) : List Char :=
  "\x1b[".data ++ padZ 4 Count ++ "D".data

/-- Embedding of the single-step `MoveDown(Buff)` (ConsoleCMD.h:745):
the appended characters. -/
def MoveDownBuf : List Char := "\x1b[B".data

/-! ## Color pairs (colors.h) -/

/-- Embedding of `struct color` (colors.h): a foreground/background
pair. -/
structure color where
  F : rgb
  B : rgb
deriving DecidableEq, Repr

/-- Embedding of `color::apply(Buffer)` (colors.h:506-509): append the
foreground then the background color sequence. -/
def color.applyBuf (c : color) (Buffer : List Char) : List Char :=
  Buffer ++ SetFrontColorBuf c.F.r c.F.g c.F.b ++ SetBackColorBuf c.B.r c.B.g c.B.b

/-- Constant `ListColors` (colors.h:675). -/
def ListColors : color := ⟨⟨0xff, 0xff, 0xff⟩, ⟨0x20, 0x20, 0x20⟩⟩

/-- Constant `ListFocusColors` (colors.h:676). -/
def ListFocusColors : color := ⟨⟨0xff, 0xff, 0xff⟩, ⟨0x4d, 0x4d, 0x4d⟩⟩

/-- Constant `ListSelectColors` (colors.h:677). -/
def ListSelectColors : color := ⟨⟨0xff, 0xff, 0xff⟩, ⟨0x77, 0x77, 0x77⟩⟩

/-- Constant `ListSelectFocusColors` (colors.h:678). -/
def ListSelectFocusColors : color := ⟨⟨0xff, 0xff, 0xff⟩, ⟨0x87, 0x87, 0x87⟩⟩

/-! ## DirectoryDisplayBox::initialize layout (DirectoryDisplayBox.h:246-326)

`initialize` builds the four color-marker command strings, pads them to a
common length, builds the per-row return sequence, and measures the row
template to obtain `TextLineLength`.  The computation below follows the
source line by line; `numCols` is `Area.num_cols()` and `Left` is
`LeftColumnSize`, with `numCols ≥ Left + 3` (so that the source `int`
value of `RightColumnSize = num_cols - LeftColumnSize - 3` is the
natural number `numCols - Left - 3`). -/

/-- The unpadded `CommInit` built at DirectoryDisplayBox.h:263. -/
def CommInit0 : List Char := ListColors.applyBuf []

/-- The unpadded `CommFocus` built at DirectoryDisplayBox.h:264. -/
def CommFocus0 : List Char := ListFocusColors.applyBuf []

/-- The unpadded `CommSelect` built at DirectoryDisplayBox.h:265. -/
def CommSelect0 : List Char := ListSelectColors.applyBuf []

/-- The unpadded `CommBoth` built at DirectoryDisplayBox.h:266. -/
def CommBoth0 : List Char := ListSelectFocusColors.applyBuf []

/-- The common marker width `ColorLength` (DirectoryDisplayBox.h:269-272):
the maximum of the four marker lengths, taken in source order. -/
def ddbColorLength : Nat :=
  max (max (max CommInit0.length CommBoth0.length) CommFocus0.length) CommSelect0.length

/-- Pad a marker string with NUL characters to `ddbColorLength`
(DirectoryDisplayBox.h:275-278). -/
def padComm (l : List Char) : List Char :=
  l ++ List.replicate (ddbColorLength - l.length) (Char.ofNat 0)

/-- The padded `CommInit` held after `initialize`. -/
def CommInitP : List Char := padComm CommInit0

/-- The padded `CommFocus` held after `initialize`. -/
def CommFocusP : List Char := padComm CommFocus0

/-- The padded `CommSelect` held after `initialize`. -/
def CommSelectP : List Char := padComm CommSelect0

/-- The padded `CommBoth` held after `initialize`. -/
def CommBothP : List Char := padComm CommBoth0

/-- The padded `CommReturn` held after `initialize`
(DirectoryDisplayBox.h:284-292): move left over the row width, move down
one line, padded with NULs to the length of the position sequence
`SetPos(TempBuffer, 1, 1)` when shorter. -/
def ddbCommReturn (numCols Left : Nat) : List Char :=
  let Right := numCols - Left - 3
  let c := MoveLeftBuf (Left + Right + 2) ++ MoveDownBuf
  let MoveLength := max (SetPosBuf 1 1).length c.length
  c ++ List.replicate (MoveLength - c.length) (Char.ofNat 0)

/-- Wide character constant `LLQUOTE` (ConsoleCMD.h:213). -/
def LLQUOTE : Char := Char.ofNat 0xABC2

/-- Wide character constant `RRQUOTE` (ConsoleCMD.h:214). -/
def RRQUOTE : Char := Char.ofNat 0xBBC2

/-- The row template measured by `initialize`
(DirectoryDisplayBox.h:315-323): marker, left column, left sign, right
column, right sign, return sequence. -/
def ddbTemplateRow (numCols Left : Nat) : List Char :=
  CommInitP ++ List.replicate Left (Char.ofNat 32) ++ [LLQUOTE] ++
    List.replicate (numCols - Left - 3) (Char.ofNat 32) ++ [RRQUOTE] ++
    ddbCommReturn numCols Left

/-- `TextLineLength` recorded by `initialize` (DirectoryDisplayBox.h:324). -/
def ddbTextLineLength (numCols Left : Nat) : Nat :=
  (ddbTemplateRow numCols Left).length

/-- Embedding of the in-range case of `std::wstring::replace(pos, n, s)`
with `n = s.size()`, as used by `swap_select` and the navigation
operations (e.g. DirectoryDisplayBox.h:449-453): splice `s` over the
`s.length` characters at `pos`. -/
def replaceAt (bf : List Char) (pos : Nat) (s : List Char) : List Char :=
  bf.take pos ++ s ++ bf.drop (pos + s.length)

/-! ## Cursor / attribute state (cursor.h)

`cursor_state` packs the shape (3 bits) and five flags into one byte; the
byte equality used by the source (`cursor_state_value` comparison)
coincides with field-wise equality, which is what the structure equality
below decides.  `cursor_data` packs an RGB triple and a state byte into
32 bits; its `rgb_value`/`value` comparisons are over the packed 24-bit
color, reproduced arithmetically. -/

/-- Embedding of `struct cursor_state` (cursor.h:80-97): `SHAPE` is the
3-bit shape field (0-7), the rest are one-bit flags. -/
structure cursor_state where
  SHAPE : Nat
  BLINK : Bool
  UNDER : Bool
  SHOW : Bool
  BOLD : Bool
  NEG : Bool
deriving DecidableEq, Repr

/-- Embedding of `struct cursor_data` (cursor.h:110-239): an RGB triple
plus a packed state byte. -/
structure cursor_data where
  R : Nat
  G : Nat
  B : Nat
  St : cursor_state
deriving DecidableEq, Repr

/-- Embedding of `cursor_data::rgb_value` (cursor.h:144-146): the packed
low 24 bits `R | G << 8 | B << 16`. -/
def cursor_data.rgb_value (d : cursor_data) : Nat := d.R + 256 * d.G + 65536 * d.B

/-- Embedding of `cursor_data::rgb` (cursor.h:152-154). -/
def cursor_data.rgbc (d : cursor_data) : rgb := ⟨d.R, d.G, d.B⟩

/-- Embedding of `class cursor` (cursor.h:249): foreground and background
`cursor_data`. -/
structure cursor where
  F : cursor_data
  B : cursor_data
deriving DecidableEq, Repr

/-- Characters appended by `SetShow(Buff)` (ConsoleCMD.h:613). -/
def SetShowBuf : List Char := "\x1b[?25h".data

/-- Characters appended by `SetHide(Buff)` (ConsoleCMD.h:619). -/
def SetHideBuf : List Char := "\x1b[?25l".data

/-- Characters appended by `SetBlink(Buff)` (ConsoleCMD.h:625). -/
def SetBlinkBuf : List Char := "\x1b[?12h".data

/-- Characters appended by `ClrBlink(Buff)` (ConsoleCMD.h:631). -/
def ClrBlinkBuf : List Char := "\x1b[?12l".data

/-- Characters appended by `SetShape(Buff, Shape)` (ConsoleCMD.h:644-646). -/
def SetShapeBuf (Shape : Nat) : List Char := "\x1b[".data ++ natChars Shape ++ " q".data

/-- Characters appended by `SetBold(Buff)` (ConsoleCMD.h:684): the bold
sequence followed by one NUL. -/
def SetBoldBuf : List Char := "\x1b[1m".data ++ [Char.ofNat 0]

/-- Characters appended by `ClrBold(Buff)` (ConsoleCMD.h:690). -/
def ClrBoldBuf : List Char := "\x1b[22m".data

/-- Characters appended by `SetUnderline(Buff)` (ConsoleCMD.h:696). -/
def SetUnderlineBuf : List Char := "\x1b[4m".data ++ [Char.ofNat 0]

/-- Characters appended by `ClrUnderline(Buff)` (ConsoleCMD.h:702). -/
def ClrUnderlineBuf : List Char := "\x1b[24m".data

/-- Characters appended by `SetNegative(Buff)` (ConsoleCMD.h:713). -/
def SetNegativeBuf : List Char := "\x1b[7m".data ++ [Char.ofNat 0]

/-- Characters appended by `ClrNegative(Buff)` (ConsoleCMD.h:719). -/
def ClrNegativeBuf : List Char := "\x1b[27m".data

/-- Embedding of `cursor::apply_show` (cursor.h:536-543). -/
def cursor.apply_show (c : cursor) (Buff : List Char) : List Char :=
  if c.F.St.SHOW then Buff ++ SetShowBuf else Buff ++ SetHideBuf

/-- Embedding of `cursor::apply_blink` (cursor.h:549-556). -/
def cursor.apply_blink (c : cursor) (Buff : List Char) : List Char :=
  if c.F.St.BLINK then Buff ++ SetBlinkBuf else Buff ++ ClrBlinkBuf

/-- Embedding of `cursor::apply_shape` (cursor.h:562-564). -/
def cursor.apply_shape (c : cursor) (Buff : List Char) : List Char :=
  Buff ++ SetShapeBuf c.F.St.SHAPE

/-- Embedding of `cursor::apply_bold` (cursor.h:580-587). -/
def cursor.apply_bold (c : cursor) (Buff : List Char) : List Char :=
  if c.F.St.BOLD then Buff ++ SetBoldBuf else Buff ++ ClrBoldBuf

/-- Embedding of `cursor::apply_negative` (cursor.h:593-600). -/
def cursor.apply_negative (c : cursor) (Buff : List Char) : List Char :=
  if c.F.St.NEG then Buff ++ SetNegativeBuf else Buff ++ ClrNegativeBuf

/-- Embedding of `cursor::apply_underline` (cursor.h:606-613). -/
def cursor.apply_underline (c : cursor) (Buff : List Char) : List Char :=
  if c.F.St.UNDER then Buff ++ SetUnderlineBuf else Buff ++ ClrUnderlineBuf

/-- Embedding of `cursor::update_back_rgb` (cursor.h:1018-1022), built on
`cursor_data::update` (cursor.h:178-182): the background components are
set unconditionally and the color sequence is emitted exactly when the
packed 24-bit value changed. -/
def cursor.update_back_rgb (c : cursor) (Buff : List Char) (RGB : rgb) :
    cursor × List Char :=
  let c1 := { c with B := ⟨RGB.r, RGB.g, RGB.b, c.B.St⟩ }
  if c.B.rgb_value ≠ RGB.value then
    (c1, Buff ++ SetBackColorBuf c1.B.R c1.B.G c1.B.B)
  else (c1, Buff)

/-- Embedding of `cursor::update_front_rgb` (cursor.h:1029-1033). -/
def cursor.update_front_rgb (c : cursor) (Buff : List Char) (RGB : rgb) :
    cursor × List Char :=
  let c1 := { c with F := ⟨RGB.r, RGB.g, RGB.b, c.F.St⟩ }
  if c.F.rgb_value ≠ RGB.value then
    (c1, Buff ++ SetFrontColorBuf c1.F.R c1.F.G c1.F.B)
  else (c1, Buff)

/-- One conditional step of `cursor::update_to`: the SHAPE comparison
(cursor.h:1093-1096). -/
def cursor.upd_shape (Rhs : cursor) (p : cursor × List Char) : cursor × List Char :=
  if p.1.F.St.SHAPE ≠ Rhs.F.St.SHAPE then
    let c1 := { p.1 with F := { p.1.F with St := { p.1.F.St with SHAPE := Rhs.F.St.SHAPE } } }
    (c1, c1.apply_shape p.2)
  else p

/-- One conditional step of `cursor::update_to`: the SHOW comparison
(cursor.h:1097-1100). -/
def cursor.upd_show (Rhs : cursor) (p : cursor × List Char) : cursor × List Char :=
  if p.1.F.St.SHOW ≠ Rhs.F.St.SHOW then
    let c1 := { p.1 with F := { p.1.F with St := { p.1.F.St with SHOW := Rhs.F.St.SHOW } } }
    (c1, c1.apply_show p.2)
  else p

/-- One conditional step of `cursor::update_to`: the BLINK comparison
(cursor.h:1101-1104). -/
def cursor.upd_blink (Rhs : cursor) (p : cursor × List Char) : cursor × List Char :=
  if p.1.F.St.BLINK ≠ Rhs.F.St.BLINK then
    let c1 := { p.1 with F := { p.1.F with St := { p.1.F.St with BLINK := Rhs.F.St.BLINK } } }
    (c1, c1.apply_blink p.2)
  else p

/-- One conditional step of `cursor::update_to`: the NEG comparison
(cursor.h:1105-1108). -/
def cursor.upd_neg (Rhs : cursor) (p : cursor × List Char) : cursor × List Char :=
  if p.1.F.St.NEG ≠ Rhs.F.St.NEG then
    let c1 := { p.1 with F := { p.1.F with St := { p.1.F.St with NEG := Rhs.F.St.NEG } } }
    (c1, c1.apply_negative p.2)
  else p

/-- One conditional step of `cursor::update_to`: the BOLD comparison
(cursor.h:1109-1112). -/
def cursor.upd_bold (Rhs : cursor) (p : cursor × List Char) : cursor × List Char :=
  if p.1.F.St.BOLD ≠ Rhs.F.St.BOLD then
    let c1 := { p.1 with F := { p.1.F with St := { p.1.F.St with BOLD := Rhs.F.St.BOLD } } }
    (c1, c1.apply_bold p.2)
  else p

/-- One conditional step of `cursor::update_to`: the UNDER comparison
(cursor.h:1113-1116). -/
def cursor.upd_under (Rhs : cursor) (p : cursor × List Char) : cursor × List Char :=
  if p.1.F.St.UNDER ≠ Rhs.F.St.UNDER then
    let c1 := { p.1 with F := { p.1.F with St := { p.1.F.St with UNDER := Rhs.F.St.UNDER } } }
    (c1, c1.apply_underline p.2)
  else p

/-- The guarded state-byte portion of `cursor::update_to`
(cursor.h:1092-1117): when the packed foreground state byte differs from
the target, run the six field comparisons in source order. -/
def cursor.upd_state (Rhs : cursor) (p : cursor × List Char) : cursor × List Char :=
  if p.1.F.St ≠ Rhs.F.St then
    cursor.upd_under Rhs (cursor.upd_bold Rhs (cursor.upd_neg Rhs
      (cursor.upd_blink Rhs (cursor.upd_show Rhs (cursor.upd_shape Rhs p)))))
  else p

/-- Embedding of `cursor::update_to` (cursor.h:1085-1118): update both
colors, then run the guarded state-byte update. -/
def cursor.update_to (c : cursor) (Buff : List Char) (Rhs : cursor) :
    cursor × List Char :=
  let p1 := c.update_back_rgb Buff Rhs.B.rgbc
  let p2 := p1.1.update_front_rgb p1.2 Rhs.F.rgbc
  cursor.upd_state Rhs p2

/-! ## Scrollbars (WindowBox.h)

Both `draw` methods position the cursor, draw an arrow at each end of the
track, and render the track cells; each track cell is one character drawn
under the colors/attributes in effect at that point of the emission.  The
definitions below reproduce the thumb geometry computation verbatim and
record, for every track cell in order, the style it is drawn with (the
cells are the `FSQUARE` loop bodies of the horizontal bar and the
blank-cell loop bodies of the vertical bar).  C++ `int` division
(truncation toward zero) is `Int.tdiv`. -/

/-- The scrollbar inputs used by the track rendering: `BarLength` and
`ScrollColors` (F = thumb color, B = track color) of `BasicScrollBar`
(WindowBox.h:269-334). -/
structure scrollbar_config where
  BarLength : Int
  ScrollF : rgb
  ScrollB : rgb
deriving DecidableEq, Repr

/-- Embedding of the thumb geometry of `HorizontalScrollBar::draw`
(WindowBox.h:404-429): the computed `(thumbStart, thumbEnd)` of the
active (`NumItems > BarLength`) branch. -/
def hscroll_thumb (BarLength FirstItem NumItems : Int) : Int × Int :=
  let te0 := Int.tdiv ((FirstItem + BarLength) * BarLength) NumItems
  let te1 := if te0 ≥ BarLength then
      BarLength - (if FirstItem + BarLength < NumItems then 1 else 0)
    else te0
  let p := if te1 > 0 then
      let ts0 := te1 - Int.tdiv (BarLength * BarLength) NumItems
      let ts1 := ts0 - (if ts0 = te1 then 1 else 0)
      (if ts1 > 0 then ts1 else 0, te1)
    else ((0 : Int), (1 : Int))
  if p.1 = 0 ∧ FirstItem > 0 then (p.1 + 1, p.2 + 1) else p

/-- The front color of every track cell emitted by
`HorizontalScrollBar::draw` (WindowBox.h:370-485), in emission order:
the inactive branch draws `BarLength` cells in the track color; the
active branch draws the pre-thumb cells in the track color, the thumb
cells in the thumb color, and the post-thumb cells in the track color.
The background of every cell is `BackRGB` and no cell is drawn in
negative video. -/
def hscroll_cells (sb : scrollbar_config) (FirstItem NumItems : Int) : List rgb :=
  if NumItems ≤ sb.BarLength then
    List.replicate sb.BarLength.toNat sb.ScrollB
  else
    let p := hscroll_thumb sb.BarLength FirstItem NumItems
    List.replicate p.1.toNat sb.ScrollB ++
      List.replicate (p.2 - p.1).toNat sb.ScrollF ++
      List.replicate (sb.BarLength - p.2).toNat sb.ScrollB

/-- Embedding of the thumb geometry of `VerticalScrollBar::draw`
(WindowBox.h:562-587): the computed `(thumbStart, thumbEnd)` of the
active (`NumItems ≥ BarLength`) branch, over the track of
`NumBars = BarLength - 2` cells.  Note the clamp compares
`FirstRow + BarLength` against `NumBars` (not `NumItems`), exactly as the
source does. -/
def vscroll_thumb (BarLength FirstRow NumItems : Int) : Int × Int :=
  let NumBars := BarLength - 2
  let te0 := Int.tdiv ((FirstRow + BarLength) * NumBars) NumItems
  let te1 := if te0 ≥ NumBars then
      NumBars - (if FirstRow + BarLength < NumBars then 1 else 0)
    else te0
  let p := if te1 > 0 then
      let ts0 := te1 - Int.tdiv (BarLength * NumBars) NumItems
      let ts1 := ts0 - (if ts0 = te1 then 1 else 0)
      (if ts1 > 0 then ts1 else 0, te1)
    else ((0 : Int), (1 : Int))
  if p.1 = 0 ∧ FirstRow > 0 then (p.1 + 1, p.2 + 1) else p

/-- The style (front color, back color, negative-video flag) of one track
cell of the vertical scrollbar. -/
structure vcell where
  front : rgb
  back : rgb
  neg : Bool
deriving DecidableEq, Repr

/-- The style of every track cell emitted by `VerticalScrollBar::draw`
(WindowBox.h:522-641), in emission order: the inactive branch
(`NumItems < BarLength`) draws `NumBars` blank cells with both colors set
to the track color; the active branch draws the pre-thumb and post-thumb
cells with thumb foreground over track background, and the thumb cells
the same but in negative video (`SetNegative`/`ClrNegative` around the
thumb loop). -/
def vscroll_cells (sb : scrollbar_config) (FirstRow NumItems : Int) : List vcell :=
  let NumBars := sb.BarLength - 2
  if NumItems < sb.BarLength then
    List.replicate NumBars.toNat ⟨sb.ScrollB, sb.ScrollB, false⟩
  else
    let p := vscroll_thumb sb.BarLength FirstRow NumItems
    List.replicate p.1.toNat ⟨sb.ScrollF, sb.ScrollB, false⟩ ++
      List.replicate (p.2 - p.1).toNat ⟨sb.ScrollF, sb.ScrollB, true⟩ ++
      List.replicate (NumBars - p.2).toNat ⟨sb.ScrollF, sb.ScrollB, false⟩

/-! ## Theorems -/

set_option maxHeartbeats 3200000
set_option maxRecDepth 8000

/-- C10: `operator +` on `rgb` computes the component-wise truncating
integer average, hence is commutative and idempotent, and at input
(200,200,200)+(200,200,200) yields (200,200,200), which is neither the
saturating result (255,...) nor the modular result (144,...). -/
theorem C10_rgb_add_is_component_average (L R : rgb) (hL : L.wf) (hR : R.wf) :
    (L.add R).r = (L.r + R.r) / 2 ∧ (L.add R).g = (L.g + R.g) / 2 ∧
    (L.add R).b = (L.b + R.b) / 2 ∧ L.add R = R.add L ∧ L.add L = L ∧
    rgb.add ⟨200, 200, 200⟩ ⟨200, 200, 200⟩ = ⟨200, 200, 200⟩ ∧
    rgb.add ⟨200, 200, 200⟩ ⟨200, 200, 200⟩ ≠ ⟨255, 255, 255⟩ ∧
    rgb.add ⟨200, 200, 200⟩ ⟨200, 200, 200⟩ ≠ ⟨144, 144, 144⟩ := by
  obtain ⟨lr, lg, lb⟩ := L
  obtain ⟨rr, rg, rb⟩ := R
  simp only [rgb.wf] at hL hR
  obtain ⟨ha, hb, hc⟩ := hL
  obtain ⟨hd, he, hf⟩ := hR
  simp only [rgb.add, rgb.avgc, toU8, rgb.mk.injEq]
  refine ⟨by omega, by omega, by omega, ⟨?_, ?_, ?_⟩, by omega,
    by decide, by decide, by decide⟩ <;> rw [Nat.add_comm]

/-- Witness for C10 at the concrete colors (10,20,30) and (1,2,3). -/
theorem C10_witness :
    (rgb.add ⟨10, 20, 30⟩ ⟨1, 2, 3⟩).r = (10 + 1) / 2 ∧
    (rgb.add ⟨10, 20, 30⟩ ⟨1, 2, 3⟩).g = (20 + 2) / 2 ∧
    (rgb.add ⟨10, 20, 30⟩ ⟨1, 2, 3⟩).b = (30 + 3) / 2 ∧
    rgb.add ⟨10, 20, 30⟩ ⟨1, 2, 3⟩ = rgb.add ⟨1, 2, 3⟩ ⟨10, 20, 30⟩ ∧
    rgb.add ⟨10, 20, 30⟩ ⟨10, 20, 30⟩ = ⟨10, 20, 30⟩ ∧
    rgb.add ⟨200, 200, 200⟩ ⟨200, 200, 200⟩ = ⟨200, 200, 200⟩ ∧
    rgb.add ⟨200, 200, 200⟩ ⟨200, 200, 200⟩ ≠ ⟨255, 255, 255⟩ ∧
    rgb.add ⟨200, 200, 200⟩ ⟨200, 200, 200⟩ ≠ ⟨144, 144, 144⟩ :=
  C10_rgb_add_is_component_average ⟨10, 20, 30⟩ ⟨1, 2, 3⟩ (by decide) (by decide)

/-- C4 counterexample: for the rectangle with Top = (-1,0), Bottom = (0,0),
`R.intersect(R)` returns R unchanged while `R.normalize()` clamps the top
row to 0, so the claimed identity fails on non-normalized rectangles. -/
theorem C4_counterexample :
    coord_box.intersect ⟨⟨-1, 0⟩, ⟨0, 0⟩⟩ ⟨⟨-1, 0⟩, ⟨0, 0⟩⟩ ≠
      coord_box.normalize ⟨⟨-1, 0⟩, ⟨0, 0⟩⟩ 1 1 := by decide

/-- C4 (amended): for every rectangle already in normalized form
(non-negative top, top ≤ bottom component-wise), `R.intersect(R)` equals
`R.normalize()` with the default minimum size 1x1; and intersecting
disjoint rectangles always yields a rectangle with non-positive width or
non-positive height. -/
theorem C4_intersect_normalize_amended :
    (∀ R : coord_box, 0 ≤ R.Top.Row → 0 ≤ R.Top.Col → R.Top.Row ≤ R.Bottom.Row →
        R.Top.Col ≤ R.Bottom.Col → R.intersect R = R.normalize 1 1) ∧
    (∀ A B : coord_box, A.disjoint B = true →
        (A.intersect B).num_cols ≤ 0 ∨ (A.intersect B).num_rows ≤ 0) := by
  constructor
  · intro R hTR hTC hRow hCol
    simp only [coord_box.intersect, coord_box.normalize, coord.normalize,
      coord_box.mk.injEq, coord.mk.injEq]
    split_ifs <;> omega
  · intro A B h
    simp only [coord_box.disjoint, Bool.or_eq_true, decide_eq_true_eq] at h
    simp only [coord_box.intersect, coord_box.num_cols, coord_box.num_rows]
    split_ifs <;> omega

/-- Witness for C4 at a concrete normalized rectangle and a concrete
disjoint pair. -/
theorem C4_witness :
    coord_box.intersect ⟨⟨0, 0⟩, ⟨2, 3⟩⟩ ⟨⟨0, 0⟩, ⟨2, 3⟩⟩ =
      coord_box.normalize ⟨⟨0, 0⟩, ⟨2, 3⟩⟩ 1 1 ∧
    ((coord_box.intersect ⟨⟨0, 0⟩, ⟨2, 3⟩⟩ ⟨⟨5, 5⟩, ⟨7, 9⟩⟩).num_cols ≤ 0 ∨
      (coord_box.intersect ⟨⟨0, 0⟩, ⟨2, 3⟩⟩ ⟨⟨5, 5⟩, ⟨7, 9⟩⟩).num_rows ≤ 0) :=
  ⟨C4_intersect_normalize_amended.1 ⟨⟨0, 0⟩, ⟨2, 3⟩⟩ (by decide) (by decide)
      (by decide) (by decide),
    C4_intersect_normalize_amended.2 ⟨⟨0, 0⟩, ⟨2, 3⟩⟩ ⟨⟨5, 5⟩, ⟨7, 9⟩⟩ (by decide)⟩

/-- C3: with at least one item and at least one visible row, each of the
four navigation operations preserves the ViewportState invariant
`0 ≤ TopIndex ≤ FocusIndex < NumIndexes` and
`FocusIndex - TopIndex < visibleCount` (where
`visibleCount = num_rows() - 1`). -/
theorem C3_navigation_preserves_invariant (s : ddb_view) (hN : 0 < s.NumIndexes)
    (hV : 1 ≤ s.numRows - 1) (h : s.inv) :
    s.move_up.inv ∧ s.move_down.inv ∧ s.page_up.inv ∧ s.page_down.inv := by
  obtain ⟨h1, h2, h3, h4⟩ := h
  refine ⟨?_, ?_, ?_, ?_⟩ <;>
    simp only [ddb_view.move_up, ddb_view.move_down, ddb_view.page_up,
      ddb_view.page_down, ddb_view.inv] <;>
    split_ifs <;> simp_all <;> omega

/-- Witness for C3 at the concrete viewport (top 2, focus 4, 30 items,
11 rows). -/
theorem C3_witness :
    (ddb_view.move_up ⟨2, 4, 30, 11⟩).inv ∧ (ddb_view.move_down ⟨2, 4, 30, 11⟩).inv ∧
    (ddb_view.page_up ⟨2, 4, 30, 11⟩).inv ∧ (ddb_view.page_down ⟨2, 4, 30, 11⟩).inv :=
  C3_navigation_preserves_invariant ⟨2, 4, 30, 11⟩ (by decide) (by decide)
    ⟨by decide, by decide, by decide, by decide⟩

/-- C8: on a 30-item list with a 10-row visible item window (num_rows = 11)
starting at TopIndex 0 and FocusIndex 5, the first `page_down` moves the
focus to row 9 without scrolling, and the second `page_down` scrolls
TopIndex to 9 (moving the focus to 18). -/
theorem C8_page_down_scenario :
    ddb_view.page_down ⟨0, 5, 30, 11⟩ = ⟨0, 9, 30, 11⟩ ∧
    ddb_view.page_down ⟨0, 9, 30, 11⟩ = ⟨9, 18, 30, 11⟩ := by decide

/-- C7: typing the seven characters A-G in insert mode into an empty field
of width 5 and capacity 10 yields text "ABCDEFG", display start 2, and the
visible window renders exactly "CDEFG". -/
theorem C7_typing_scenario :
    (InputControl.insertAll ⟨[], false, 0, 0, 10, 5⟩
        [65, 66, 67, 68, 69, 70, 71]).map
        (fun s => (s.Text, s.BeginIndex, s.format_content 0)) =
      some ([65, 66, 67, 68, 69, 70, 71], 2, [67, 68, 69, 70, 71]) := by decide

/-- C1: at the failing input (text "abc" at MaxLength 3, cursor strictly
inside the text, insert mode), inserting the character X (code 88)
leaves the text unchanged but
returns `true` (the source returns `Processed >= 0` with `Processed == 0`),
contradicting the claimed `false`; the overwrite-mode half of the claim
behaves as stated (replaces the character at the cursor, advances, and
returns `true`). -/
theorem C1_insert_at_maxlength_behavior :
    InputControl.insert ⟨[97, 98, 99], false, 0, 1, 3, 5⟩ 88 =
      some (true, ⟨[97, 98, 99], false, 0, 1, 3, 5⟩) ∧
    InputControl.insert ⟨[97, 98, 99], true, 0, 1, 3, 5⟩ 88 =
      some (true, ⟨[97, 88, 99], true, 0, 2, 3, 5⟩) := by decide

/-- C9: under the text-edit invariant (non-negative indices, cursor offset
within the column width, window end within the text, text within
capacity), `insert` never reaches the `std::logic_error` validation
branch, for every key code. -/
theorem C9_insert_never_throws (s : InputControl) (x : Int)
    (h1 : 0 ≤ s.BeginIndex) (h2 : 0 ≤ s.BeginOffset) (h3 : s.BeginOffset ≤ s.numCols)
    (h4 : s.BeginIndex + s.BeginOffset ≤ (s.Text.length : Int))
    (h5 : (s.Text.length : Int) ≤ s.MaxLength) :
    s.insert x ≠ none := by
  unfold InputControl.insert
  rw [if_neg (by omega)]
  rcases hpc : s.process_control_keys x with ⟨b, s1⟩
  cases b
  · dsimp only
    split_ifs <;> simp
  · simp

/-- Witness for C9 at a concrete valid state and key code. -/
theorem C9_witness : InputControl.insert ⟨[97], false, 0, 1, 5, 5⟩ 66 ≠ none :=
  C9_insert_never_throws ⟨[97], false, 0, 1, 5, 5⟩ 66 (by decide) (by decide)
    (by decide) (by decide) (by decide)

/-- Length preservation of an in-range same-width patch. -/
theorem replaceAt_length (bf s : List Char) (pos : Nat)
    (h : pos + s.length ≤ bf.length) :
    (replaceAt bf pos s).length = bf.length := by
  simp only [replaceAt, List.length_append, List.length_take, List.length_drop]
  omega

/-- Frame property of an in-range same-width patch: every position outside
the patched span reads back unchanged. -/
theorem replaceAt_getElem_outside (bf s : List Char) (pos j : Nat)
    (h : pos + s.length ≤ bf.length) (hj : j < pos ∨ pos + s.length ≤ j) :
    (replaceAt bf pos s)[j]? = bf[j]? := by
  have htake : (bf.take pos).length = pos := by
    simp only [List.length_take]
    omega
  rcases hj with hj | hj
  · rw [replaceAt,
      List.getElem?_append_left (by simp only [List.length_append]; omega :
        j < (bf.take pos ++ s).length),
      List.getElem?_append_left (by omega : j < (bf.take pos).length),
      List.getElem?_take_of_lt hj]
  · rw [replaceAt,
      List.getElem?_append_right (by simp only [List.length_append]; omega :
        (bf.take pos ++ s).length ≤ j),
      List.getElem?_drop]
    simp only [List.length_append, htake]
    congr 1
    omega

/-- C2: after `initialize`, the four padded color-marker command strings
have identical length, and for a buffer of `n` rows of `TextLineLength`
characters, splicing any one of the four markers at the row-marker offset
`TextLineLength * i` of a row `i < n` preserves the total buffer length
and leaves every character outside the marker span (all other rows, and
the text region of row `i`) byte-identical. -/
theorem C2_marker_patch_frame (numCols Left : Nat) (bf s : List Char) (n i : Nat)
    (hs : s = CommInitP ∨ s = CommFocusP ∨ s = CommSelectP ∨ s = CommBothP)
    (hbf : bf.length = ddbTextLineLength numCols Left * n) (hi : i < n) :
    (CommInitP.length = CommFocusP.length ∧ CommFocusP.length = CommSelectP.length ∧
      CommSelectP.length = CommBothP.length) ∧
    (replaceAt bf (ddbTextLineLength numCols Left * i) s).length = bf.length ∧
    (∀ j : Nat, j < ddbTextLineLength numCols Left * i ∨
        ddbTextLineLength numCols Left * i + s.length ≤ j →
      (replaceAt bf (ddbTextLineLength numCols Left * i) s)[j]? = bf[j]?) := by
  have hslen : s.length = 38 := by
    rcases hs with h | h | h | h <;> subst h <;> decide
  have hcI : CommInitP.length = 38 := by decide
  have h38 : 38 ≤ ddbTextLineLength numCols Left := by
    simp only [ddbTextLineLength, ddbTemplateRow, List.length_append]
    omega
  have hrange : ddbTextLineLength numCols Left * i + s.length ≤ bf.length := by
    rw [hslen, hbf]
    have hin : i + 1 ≤ n := hi
    have h1 : ddbTextLineLength numCols Left * (i + 1) =
        ddbTextLineLength numCols Left * i + ddbTextLineLength numCols Left :=
      Nat.mul_succ _ i
    have h2 : ddbTextLineLength numCols Left * (i + 1) ≤ ddbTextLineLength numCols Left * n :=
      Nat.mul_le_mul_left _ hin
    omega
  exact ⟨⟨by decide, by decide, by decide⟩, replaceAt_length bf s _ hrange,
    fun j hj => replaceAt_getElem_outside bf s _ j hrange (by omega)⟩

/-- Witness for C2 on a 2-row buffer of the 50-column, 14-left-column
layout (row length 99), patching the focus marker onto row 0 and reading
back position 150 (inside row 1). -/
theorem C2_witness :
    (CommInitP.length = CommFocusP.length ∧ CommFocusP.length = CommSelectP.length ∧
      CommSelectP.length = CommBothP.length) ∧
    (replaceAt (List.replicate 198 (Char.ofNat 97)) 0 CommFocusP).length =
      (List.replicate 198 (Char.ofNat 97)).length ∧
    (replaceAt (List.replicate 198 (Char.ofNat 97)) 0 CommFocusP)[150]? =
      (List.replicate 198 (Char.ofNat 97))[150]? :=
  ⟨(C2_marker_patch_frame 50 14 (List.replicate 198 (Char.ofNat 97)) CommFocusP 2 0
      (Or.inr (Or.inl rfl)) (by decide) (by decide)).1,
    (C2_marker_patch_frame 50 14 (List.replicate 198 (Char.ofNat 97)) CommFocusP 2 0
      (Or.inr (Or.inl rfl)) (by decide) (by decide)).2.1,
    (C2_marker_patch_frame 50 14 (List.replicate 198 (Char.ofNat 97)) CommFocusP 2 0
      (Or.inr (Or.inl rfl)) (by decide) (by decide)).2.2 150 (by decide)⟩

end mz

namespace mz
set_option maxHeartbeats 3200000
set_option maxRecDepth 8000

/-- State effect of `update_back_rgb`: the background components are set
unconditionally, the state byte is kept. -/
theorem update_back_rgb_fst (c : cursor) (b : List Char) (RGB : rgb) :
    (c.update_back_rgb b RGB).1 = { c with B := ⟨RGB.r, RGB.g, RGB.b, c.B.St⟩ } := by
  unfold cursor.update_back_rgb
  split <;> rfl

/-- State effect of `update_front_rgb`. -/
theorem update_front_rgb_fst (c : cursor) (b : List Char) (RGB : rgb) :
    (c.update_front_rgb b RGB).1 = { c with F := ⟨RGB.r, RGB.g, RGB.b, c.F.St⟩ } := by
  unfold cursor.update_front_rgb
  split <;> rfl

/-- When the background already matches, `update_back_rgb` emits nothing
and leaves the state unchanged. -/
theorem update_back_rgb_noop (c : cursor) (b : List Char) (RGB : rgb)
    (h1 : c.B.R = RGB.r) (h2 : c.B.G = RGB.g) (h3 : c.B.B = RGB.b) :
    c.update_back_rgb b RGB = (c, b) := by
  unfold cursor.update_back_rgb
  rw [if_neg (by simp [cursor_data.rgb_value, rgb.value, h1, h2, h3])]
  rw [← h1, ← h2, ← h3]

/-- When the foreground already matches, `update_front_rgb` emits nothing
and leaves the state unchanged. -/
theorem update_front_rgb_noop (c : cursor) (b : List Char) (RGB : rgb)
    (h1 : c.F.R = RGB.r) (h2 : c.F.G = RGB.g) (h3 : c.F.B = RGB.b) :
    c.update_front_rgb b RGB = (c, b) := by
  unfold cursor.update_front_rgb
  rw [if_neg (by simp [cursor_data.rgb_value, rgb.value, h1, h2, h3])]
  rw [← h1, ← h2, ← h3]

/-- Field-wise effect of the SHAPE comparison step. -/
theorem upd_shape_spec (Rhs : cursor) (p : cursor × List Char) :
    (cursor.upd_shape Rhs p).1.F.St.SHAPE = Rhs.F.St.SHAPE ∧
    (cursor.upd_shape Rhs p).1.F.St.BLINK = p.1.F.St.BLINK ∧
    (cursor.upd_shape Rhs p).1.F.St.UNDER = p.1.F.St.UNDER ∧
    (cursor.upd_shape Rhs p).1.F.St.SHOW = p.1.F.St.SHOW ∧
    (cursor.upd_shape Rhs p).1.F.St.BOLD = p.1.F.St.BOLD ∧
    (cursor.upd_shape Rhs p).1.F.St.NEG = p.1.F.St.NEG ∧
    (cursor.upd_shape Rhs p).1.F.R = p.1.F.R ∧
    (cursor.upd_shape Rhs p).1.F.G = p.1.F.G ∧
    (cursor.upd_shape Rhs p).1.F.B = p.1.F.B ∧
    (cursor.upd_shape Rhs p).1.B = p.1.B := by
  unfold cursor.upd_shape
  split <;> simp_all

/-- Field-wise effect of the SHOW comparison step. -/
theorem upd_show_spec (Rhs : cursor) (p : cursor × List Char) :
    (cursor.upd_show Rhs p).1.F.St.SHAPE = p.1.F.St.SHAPE ∧
    (cursor.upd_show Rhs p).1.F.St.BLINK = p.1.F.St.BLINK ∧
    (cursor.upd_show Rhs p).1.F.St.UNDER = p.1.F.St.UNDER ∧
    (cursor.upd_show Rhs p).1.F.St.SHOW = Rhs.F.St.SHOW ∧
    (cursor.upd_show Rhs p).1.F.St.BOLD = p.1.F.St.BOLD ∧
    (cursor.upd_show Rhs p).1.F.St.NEG = p.1.F.St.NEG ∧
    (cursor.upd_show Rhs p).1.F.R = p.1.F.R ∧
    (cursor.upd_show Rhs p).1.F.G = p.1.F.G ∧
    (cursor.upd_show Rhs p).1.F.B = p.1.F.B ∧
    (cursor.upd_show Rhs p).1.B = p.1.B := by
  unfold cursor.upd_show
  split <;> simp_all

/-- Field-wise effect of the BLINK comparison step. -/
theorem upd_blink_spec (Rhs : cursor) (p : cursor × List Char) :
    (cursor.upd_blink Rhs p).1.F.St.SHAPE = p.1.F.St.SHAPE ∧
    (cursor.upd_blink Rhs p).1.F.St.BLINK = Rhs.F.St.BLINK ∧
    (cursor.upd_blink Rhs p).1.F.St.UNDER = p.1.F.St.UNDER ∧
    (cursor.upd_blink Rhs p).1.F.St.SHOW = p.1.F.St.SHOW ∧
    (cursor.upd_blink Rhs p).1.F.St.BOLD = p.1.F.St.BOLD ∧
    (cursor.upd_blink Rhs p).1.F.St.NEG = p.1.F.St.NEG ∧
    (cursor.upd_blink Rhs p).1.F.R = p.1.F.R ∧
    (cursor.upd_blink Rhs p).1.F.G = p.1.F.G ∧
    (cursor.upd_blink Rhs p).1.F.B = p.1.F.B ∧
    (cursor.upd_blink Rhs p).1.B = p.1.B := by
  unfold cursor.upd_blink
  split <;> simp_all

/-- Field-wise effect of the NEG comparison step. -/
theorem upd_neg_spec (Rhs : cursor) (p : cursor × List Char) :
    (cursor.upd_neg Rhs p).1.F.St.SHAPE = p.1.F.St.SHAPE ∧
    (cursor.upd_neg Rhs p).1.F.St.BLINK = p.1.F.St.BLINK ∧
    (cursor.upd_neg Rhs p).1.F.St.UNDER = p.1.F.St.UNDER ∧
    (cursor.upd_neg Rhs p).1.F.St.SHOW = p.1.F.St.SHOW ∧
    (cursor.upd_neg Rhs p).1.F.St.BOLD = p.1.F.St.BOLD ∧
    (cursor.upd_neg Rhs p).1.F.St.NEG = Rhs.F.St.NEG ∧
    (cursor.upd_neg Rhs p).1.F.R = p.1.F.R ∧
    (cursor.upd_neg Rhs p).1.F.G = p.1.F.G ∧
    (cursor.upd_neg Rhs p).1.F.B = p.1.F.B ∧
    (cursor.upd_neg Rhs p).1.B = p.1.B := by
  unfold cursor.upd_neg
  split <;> simp_all

/-- Field-wise effect of the BOLD comparison step. -/
theorem upd_bold_spec (Rhs : cursor) (p : cursor × List Char) :
    (cursor.upd_bold Rhs p).1.F.St.SHAPE = p.1.F.St.SHAPE ∧
    (cursor.upd_bold Rhs p).1.F.St.BLINK = p.1.F.St.BLINK ∧
    (cursor.upd_bold Rhs p).1.F.St.UNDER = p.1.F.St.UNDER ∧
    (cursor.upd_bold Rhs p).1.F.St.SHOW = p.1.F.St.SHOW ∧
    (cursor.upd_bold Rhs p).1.F.St.BOLD = Rhs.F.St.BOLD ∧
    (cursor.upd_bold Rhs p).1.F.St.NEG = p.1.F.St.NEG ∧
    (cursor.upd_bold Rhs p).1.F.R = p.1.F.R ∧
    (cursor.upd_bold Rhs p).1.F.G = p.1.F.G ∧
    (cursor.upd_bold Rhs p).1.F.B = p.1.F.B ∧
    (cursor.upd_bold Rhs p).1.B = p.1.B := by
  unfold cursor.upd_bold
  split <;> simp_all

/-- Field-wise effect of the UNDER comparison step. -/
theorem upd_under_spec (Rhs : cursor) (p : cursor × List Char) :
    (cursor.upd_under Rhs p).1.F.St.SHAPE = p.1.F.St.SHAPE ∧
    (cursor.upd_under Rhs p).1.F.St.BLINK = p.1.F.St.BLINK ∧
    (cursor.upd_under Rhs p).1.F.St.UNDER = Rhs.F.St.UNDER ∧
    (cursor.upd_under Rhs p).1.F.St.SHOW = p.1.F.St.SHOW ∧
    (cursor.upd_under Rhs p).1.F.St.BOLD = p.1.F.St.BOLD ∧
    (cursor.upd_under Rhs p).1.F.St.NEG = p.1.F.St.NEG ∧
    (cursor.upd_under Rhs p).1.F.R = p.1.F.R ∧
    (cursor.upd_under Rhs p).1.F.G = p.1.F.G ∧
    (cursor.upd_under Rhs p).1.F.B = p.1.F.B ∧
    (cursor.upd_under Rhs p).1.B = p.1.B := by
  unfold cursor.upd_under
  split <;> simp_all

/-- Two cursor states with equal fields are equal (the packed byte
comparison of the source is field-wise equality). -/
theorem cursor_state_ext_eq (a b : cursor_state) (h1 : a.SHAPE = b.SHAPE)
    (h2 : a.BLINK = b.BLINK) (h3 : a.UNDER = b.UNDER) (h4 : a.SHOW = b.SHOW)
    (h5 : a.BOLD = b.BOLD) (h6 : a.NEG = b.NEG) : a = b := by
  cases a
  cases b
  simp_all

/-- After the guarded state update, the foreground state byte equals the
target and the colors are untouched. -/
theorem upd_state_converged (Rhs : cursor) (p : cursor × List Char) :
    (cursor.upd_state Rhs p).1.F.St = Rhs.F.St ∧
    (cursor.upd_state Rhs p).1.F.R = p.1.F.R ∧
    (cursor.upd_state Rhs p).1.F.G = p.1.F.G ∧
    (cursor.upd_state Rhs p).1.F.B = p.1.F.B ∧
    (cursor.upd_state Rhs p).1.B = p.1.B := by
  unfold cursor.upd_state
  split
  · obtain ⟨a1, a2, a3, a4, a5, a6, a7, a8, a9, a10⟩ := upd_shape_spec Rhs p
    obtain ⟨b1, b2, b3, b4, b5, b6, b7, b8, b9, b10⟩ :=
      upd_show_spec Rhs (cursor.upd_shape Rhs p)
    obtain ⟨c1, c2, c3, c4, c5, c6, c7, c8, c9, c10⟩ :=
      upd_blink_spec Rhs (cursor.upd_show Rhs (cursor.upd_shape Rhs p))
    obtain ⟨d1, d2, d3, d4, d5, d6, d7, d8, d9, d10⟩ :=
      upd_neg_spec Rhs (cursor.upd_blink Rhs (cursor.upd_show Rhs (cursor.upd_shape Rhs p)))
    obtain ⟨e1, e2, e3, e4, e5, e6, e7, e8, e9, e10⟩ :=
      upd_bold_spec Rhs (cursor.upd_neg Rhs (cursor.upd_blink Rhs
        (cursor.upd_show Rhs (cursor.upd_shape Rhs p))))
    obtain ⟨f1, f2, f3, f4, f5, f6, f7, f8, f9, f10⟩ :=
      upd_under_spec Rhs (cursor.upd_bold Rhs (cursor.upd_neg Rhs (cursor.upd_blink Rhs
        (cursor.upd_show Rhs (cursor.upd_shape Rhs p)))))
    refine ⟨cursor_state_ext_eq _ _ ?_ ?_ ?_ ?_ ?_ ?_, ?_, ?_, ?_, ?_⟩ <;> simp_all
  · rename_i h
    simp only [ne_eq, not_not] at h
    exact ⟨h, rfl, rfl, rfl, rfl⟩

/-- The guarded state update does nothing once the state byte matches. -/
theorem upd_state_noop (Rhs : cursor) (p : cursor × List Char)
    (h : p.1.F.St = Rhs.F.St) : cursor.upd_state Rhs p = p := by
  unfold cursor.upd_state
  rw [if_neg (by simp [h])]

/-- After one `update_to`, the tracked colors and foreground state byte
all equal the target. -/
theorem update_to_converged (c : cursor) (b : List Char) (X : cursor) :
    (c.update_to b X).1.F.St = X.F.St ∧
    (c.update_to b X).1.F.R = X.F.R ∧
    (c.update_to b X).1.F.G = X.F.G ∧
    (c.update_to b X).1.F.B = X.F.B ∧
    (c.update_to b X).1.B.R = X.B.R ∧
    (c.update_to b X).1.B.G = X.B.G ∧
    (c.update_to b X).1.B.B = X.B.B := by
  simp only [cursor.update_to]
  obtain ⟨g1, g2, g3, g4, g5⟩ := upd_state_converged X
    ((c.update_back_rgb b X.B.rgbc).1.update_front_rgb
      (c.update_back_rgb b X.B.rgbc).2 X.F.rgbc)
  have h1 := update_back_rgb_fst c b X.B.rgbc
  have h2 := update_front_rgb_fst (c.update_back_rgb b X.B.rgbc).1
    (c.update_back_rgb b X.B.rgbc).2 X.F.rgbc
  refine ⟨g1, ?_, ?_, ?_, ?_, ?_, ?_⟩
  · rw [g2, h2]
    rfl
  · rw [g3, h2]
    rfl
  · rw [g4, h2]
    rfl
  · rw [g5, h2, h1]
    rfl
  · rw [g5, h2, h1]
    rfl
  · rw [g5, h2, h1]
    rfl

/-- C5: calling `update_to(buffer, X)` immediately after a previous
`update_to(buffer, X)` appends zero characters to the buffer and changes
nothing (every field comparison finds equality once converged). -/
theorem C5_update_to_idempotent (c : cursor) (Buff : List Char) (X : cursor) :
    cursor.update_to (c.update_to Buff X).1 (c.update_to Buff X).2 X =
      c.update_to Buff X := by
  obtain ⟨hSt, hFR, hFG, hFB, hBR, hBG, hBB⟩ := update_to_converged c Buff X
  rcases hp : c.update_to Buff X with ⟨c1, b1⟩
  rw [hp] at hSt hFR hFG hFB hBR hBG hBB
  simp only at hSt hFR hFG hFB hBR hBG hBB
  show cursor.update_to c1 b1 X = (c1, b1)
  simp only [cursor.update_to]
  rw [update_back_rgb_noop _ _ _ hBR hBG hBB]
  rw [update_front_rgb_noop _ _ _ hFR hFG hFB]
  rw [upd_state_noop _ _ hSt]

/-- Helper for C6: for the horizontal bar with first visible item 0 and
more items than track cells, the computed thumb start is 0. -/
theorem hthumb_start0 (B N : Int) (hB : 0 ≤ B) (hN : B < N) :
    (hscroll_thumb B 0 N).1 = 0 := by
  have hN0 : 0 < N := lt_of_le_of_lt hB hN
  have hq0 : 0 ≤ Int.tdiv (B * B) N :=
    Int.tdiv_nonneg (mul_nonneg hB hB) (le_of_lt hN0)
  have hqle : Int.tdiv (B * B) N ≤ B := by
    rcases eq_or_lt_of_le hB with hB0 | hB1
    · rw [← hB0]
      simp [Int.zero_tdiv]
    · refine le_of_lt ?_
      rw [Int.tdiv_eq_ediv (mul_nonneg hB hB) (le_of_lt hN0),
        Int.ediv_lt_iff_lt_mul hN0]
      exact mul_lt_mul_of_pos_left hN hB1
  unfold hscroll_thumb
  simp only [zero_add]
  split_ifs <;> simp_all <;> omega

/-- Helper for C6: for the vertical bar with first visible row 0 and more
items than the bar length, the computed thumb start is 0. -/
theorem vthumb_start0 (B N : Int) (hB : 0 ≤ B) (hN : B < N) :
    (vscroll_thumb B 0 N).1 = 0 := by
  have hN0 : 0 < N := lt_of_le_of_lt hB hN
  have hq : (B ≤ 2 ∧ Int.tdiv (B * (B - 2)) N = 0) ∨
      (3 ≤ B ∧ 0 ≤ Int.tdiv (B * (B - 2)) N ∧ Int.tdiv (B * (B - 2)) N < B - 2) := by
    have hcase : B = 0 ∨ B = 1 ∨ B = 2 ∨ 3 ≤ B := by omega
    rcases hcase with h | h | h | h
    · left
      subst h
      norm_num [Int.zero_tdiv]
    · left
      subst h
      refine ⟨by norm_num, ?_⟩
      have h1 : (1 : Int) * (1 - 2) = -1 := by norm_num
      rw [h1]
      have h2 : Int.tdiv (-1) N = -(Int.tdiv 1 N) := Int.neg_tdiv 1 N
      rw [h2, Int.tdiv_eq_zero_of_lt (by norm_num) (by omega)]
      norm_num
    · left
      subst h
      have h1 : (2 : Int) * (2 - 2) = 0 := by norm_num
      rw [h1]
      exact ⟨by norm_num, Int.zero_tdiv N⟩
    · right
      have hB2 : (0 : Int) ≤ B - 2 := by omega
      refine ⟨h, Int.tdiv_nonneg (mul_nonneg hB hB2) (le_of_lt hN0), ?_⟩
      rw [Int.tdiv_eq_ediv (mul_nonneg hB hB2) (le_of_lt hN0),
        Int.ediv_lt_iff_lt_mul hN0]
      have h2 : (0 : Int) < B - 2 := by omega
      calc B * (B - 2) < N * (B - 2) := mul_lt_mul_of_pos_right hN h2
        _ = (B - 2) * N := mul_comm _ _
  unfold vscroll_thumb
  simp only [zero_add]
  rcases hq with ⟨hsmall, hq⟩ | ⟨hbig, hq0, hqlt⟩ <;> split_ifs <;> simp_all <;> omega

/-- C6 counterexample: at `BarLength = 10`, `NumItems = 10` (totalItems
equal to trackLength) and `FirstRow = 0`, the vertical scrollbar takes its
active branch (its inactive test is the strict `NumItems < BarLength`) and
draws every track cell as a negative-video thumb cell in the thumb style,
not the uniform inactive style the claim asserts for
`totalItems <= trackLength`. -/
theorem C6_counterexample :
    vscroll_cells ⟨10, ⟨210, 210, 210⟩, ⟨76, 76, 76⟩⟩ 0 10 =
      List.replicate 8 ⟨⟨210, 210, 210⟩, ⟨76, 76, 76⟩, true⟩ ∧
    vscroll_cells ⟨10, ⟨210, 210, 210⟩, ⟨76, 76, 76⟩⟩ 0 10 ≠
      List.replicate 8 ⟨⟨76, 76, 76⟩, ⟨76, 76, 76⟩, false⟩ := by decide

/-- C6 (amended): the horizontal bar renders a uniform inactive track
whenever `totalItems ≤ trackLength`; the vertical bar does so whenever
`totalItems < trackLength` — its inactive test is the strict
`NumItems < BarLength`, so at equality it takes the active thumb-rendering
branch instead (with `firstVisible = 0` that branch draws every track cell
as a negative-video thumb cell, the instance shown by the counterexample);
and for both bars, whenever `totalItems > trackLength ≥ 0` and
`firstVisible = 0`, the computed `thumbStart` is 0. -/
theorem C6_track_and_thumb_amended :
    (∀ (sb : scrollbar_config) (FirstItem NumItems : Int),
        NumItems ≤ sb.BarLength →
        hscroll_cells sb FirstItem NumItems =
          List.replicate sb.BarLength.toNat sb.ScrollB) ∧
    (∀ (sb : scrollbar_config) (FirstRow NumItems : Int),
        NumItems < sb.BarLength →
        vscroll_cells sb FirstRow NumItems =
          List.replicate (sb.BarLength - 2).toNat ⟨sb.ScrollB, sb.ScrollB, false⟩) ∧
    (∀ B N : Int, 0 ≤ B → B < N → (hscroll_thumb B 0 N).1 = 0) ∧
    (∀ B N : Int, 0 ≤ B → B < N → (vscroll_thumb B 0 N).1 = 0) := by
  refine ⟨?_, ?_, hthumb_start0, vthumb_start0⟩
  · intro sb FirstItem NumItems h
    unfold hscroll_cells
    rw [if_pos h]
  · intro sb FirstRow NumItems h
    unfold vscroll_cells
    rw [if_pos h]

/-- Witness for C6 at concrete scrollbar configurations. -/
theorem C6_witness :
    hscroll_cells ⟨10, ⟨210, 210, 210⟩, ⟨76, 76, 76⟩⟩ 2 7 =
      List.replicate 10 ⟨76, 76, 76⟩ ∧
    vscroll_cells ⟨10, ⟨210, 210, 210⟩, ⟨76, 76, 76⟩⟩ 2 7 =
      List.replicate 8 ⟨⟨76, 76, 76⟩, ⟨76, 76, 76⟩, false⟩ ∧
    (hscroll_thumb 10 0 30).1 = 0 ∧ (vscroll_thumb 10 0 30).1 = 0 :=
  ⟨C6_track_and_thumb_amended.1 ⟨10, ⟨210, 210, 210⟩, ⟨76, 76, 76⟩⟩ 2 7 (by decide),
    C6_track_and_thumb_amended.2.1 ⟨10, ⟨210, 210, 210⟩, ⟨76, 76, 76⟩⟩ 2 7 (by decide),
    C6_track_and_thumb_amended.2.2.1 10 30 (by decide) (by decide),
    C6_track_and_thumb_amended.2.2.2 10 30 (by decide) (by decide)⟩

end mz

